import Mathlib

/-!
Verification of the research-agent pipeline (src/app.py and src/main.py).

The development shallowly embeds the pure logic of the two Python modules:
the JSON extraction heuristic `extract_json`, the strict-JSON fallback
parser `safe_json_parse` (with a model of Python `json.loads`), the pydantic
`ResearchPlan` validation, the `GeminiAgent.run` retry loop, the
`run_research` orchestration of app.py, the top-level run trigger of
main.py, and the report-filename derivation of both modules.  Model
responses are represented by oracle functions `String -> String`, one per
agent call, since the language-model service is external.
-/

namespace ResearchAgent

/-- Characters recognised as whitespace by Python's `json` module
(space, tab, newline, carriage return). -/
def jsonWs (c : Char) : Bool :=
  c = ' ' || c = '\t' || c = '\n' || c = '\r'

/-- Drop leading JSON whitespace. -/
def skipWs : List Char → List Char
  | [] => []
  | c :: r => if jsonWs c then skipWs r else c :: r

/-- Values produced by Python's `json.loads`.  Integer literals become
`num`; literals with a fraction or exponent (and the non-finite constants
`NaN`, `Infinity`, `-Infinity`) are kept as their raw text in `flt`, since
no claim depends on float arithmetic. -/
inductive Json where
  | null : Json
  | bool : Bool → Json
  | num : Int → Json
  | flt : String → Json
  | str : String → Json
  | arr : List Json → Json
  | obj : List (String × Json) → Json
deriving Repr

/-- Hex digit value, for `\uXXXX` string escapes. -/
def hexVal (c : Char) : Option Nat :=
  if '0' ≤ c ∧ c ≤ '9' then some (c.toNat - '0'.toNat)
  else if 'a' ≤ c ∧ c ≤ 'f' then some (c.toNat - 'a'.toNat + 10)
  else if 'A' ≤ c ∧ c ≤ 'F' then some (c.toNat - 'A'.toNat + 10)
  else none

/-- Value of four hex digits. -/
def hex4 (a b c d : Char) : Option Nat :=
  match hexVal a, hexVal b, hexVal c, hexVal d with
  | some x, some y, some z, some w => some (((x * 16 + y) * 16 + z) * 16 + w)
  | _, _, _, _ => none

/-- Parse the body of a JSON string literal (the opening quote already
consumed), per Python `json.loads` in strict mode: raw control characters
are rejected, the eight simple escapes and `\uXXXX` are honoured.  Lean
`Char` cannot hold surrogate code points, so surrogate escapes (and hence
surrogate-pair combination) degrade to `Char.ofNat`'s default; no claim
involves them.  Returns the decoded string and the remaining input. -/
def parseJStr : List Char → List Char → Option (String × List Char)
  | [], _ => none
  | '"' :: r, acc => some (String.mk acc.reverse, r)
  | '\\' :: r, acc =>
    match r with
    | '"' :: r2 => parseJStr r2 ('"' :: acc)
    | '\\' :: r2 => parseJStr r2 ('\\' :: acc)
    | '/' :: r2 => parseJStr r2 ('/' :: acc)
    | 'b' :: r2 => parseJStr r2 (Char.ofNat 8 :: acc)
    | 'f' :: r2 => parseJStr r2 (Char.ofNat 12 :: acc)
    | 'n' :: r2 => parseJStr r2 ('\n' :: acc)
    | 'r' :: r2 => parseJStr r2 ('\r' :: acc)
    | 't' :: r2 => parseJStr r2 ('\t' :: acc)
    | 'u' :: h1 :: h2 :: h3 :: h4 :: r2 =>
      match hex4 h1 h2 h3 h4 with
      | none => none
      | some n => parseJStr r2 (Char.ofNat n :: acc)
    | _ => none
  | c :: r, acc => if c.toNat < 0x20 then none else parseJStr r (c :: acc)

/-- Longest prefix of decimal digits, with the rest. -/
def digitSpan : List Char → List Char × List Char
  | [] => ([], [])
  | c :: r =>
    if c.isDigit then
      let (ds, rest) := digitSpan r
      (c :: ds, rest)
    else ([], c :: r)

/-- Numeric value of a digit string. -/
def digitsVal (ds : List Char) : Nat :=
  ds.foldl (fun n c => n * 10 + (c.toNat - '0'.toNat)) 0

/-- Parse a JSON number at the head of the input, following the grammar of
Python's `json` module: `-? (0 | [1-9][0-9]*) (\.[0-9]+)? ([eE][-+]?[0-9]+)?`.
A pure integer literal yields `Json.num`; otherwise the raw matched text is
kept as `Json.flt`. -/
def parseJNum (l : List Char) : Option (Json × List Char) :=
  let (neg, l1) := match l with
    | '-' :: r => (true, r)
    | _ => (false, l)
  let intPart : Option (List Char × List Char) :=
    match l1 with
    | '0' :: r => some (['0'], r)
    | c :: r =>
      if c.isDigit then
        let (ds, rest) := digitSpan r
        some (c :: ds, rest)
      else none
    | [] => none
  match intPart with
  | none => none
  | some (ds, r1) =>
    let (fracText, r2) : List Char × List Char :=
      match r1 with
      | '.' :: rf =>
        let (fs, rest) := digitSpan rf
        if fs = [] then ([], r1) else ('.' :: fs, rest)
      | _ => ([], r1)
    let (expText, r3) : List Char × List Char :=
      match r2 with
      | e :: re =>
        if e = 'e' ∨ e = 'E' then
          let (sgn, rs) : List Char × List Char :=
            match re with
            | s :: rr => if s = '+' ∨ s = '-' then ([s], rr) else ([], re)
            | [] => ([], re)
          let (es, rest) := digitSpan rs
          if es = [] then ([], r2) else (e :: (sgn ++ es), rest)
        else ([], r2)
      | [] => ([], r2)
    if fracText = [] ∧ expText = [] then
      let v : Int := Int.ofNat (digitsVal ds)
      some (Json.num (if neg then -v else v), r1)
    else
      let raw := (if neg then ['-'] else []) ++ ds ++ fracText ++ expText
      some (Json.flt (String.mk raw), r3)

/-- `dict` assignment on an association list: replace in place on a
duplicate key, otherwise append. -/
def insertKey : List (String × Json) → String → Json → List (String × Json)
  | [], k, v => [(k, v)]
  | (k2, v2) :: rest, k, v =>
    if k2 = k then (k2, v) :: rest else (k2, v2) :: insertKey rest k v

mutual

/-- Parse one JSON value at the head of the input (leading whitespace
already skipped), fuel-bounded.  Mirrors the acceptance of Python
`json.loads`, including the `NaN` / `Infinity` / `-Infinity` constants. -/
def parseJVal : Nat → List Char → Option (Json × List Char)
  | 0, _ => none
  | fuel + 1, l =>
    match l with
    | [] => none
    | '{' :: r => parseJObj fuel (skipWs r)
    | '[' :: r => parseJArr fuel (skipWs r)
    | '"' :: r =>
      match parseJStr r [] with
      | some (s, rest) => some (Json.str s, rest)
      | none => none
    | 't' :: 'r' :: 'u' :: 'e' :: r => some (Json.bool true, r)
    | 'f' :: 'a' :: 'l' :: 's' :: 'e' :: r => some (Json.bool false, r)
    | 'n' :: 'u' :: 'l' :: 'l' :: r => some (Json.null, r)
    | 'N' :: 'a' :: 'N' :: r => some (Json.flt "NaN", r)
    | 'I' :: 'n' :: 'f' :: 'i' :: 'n' :: 'i' :: 't' :: 'y' :: r =>
      some (Json.flt "Infinity", r)
    | '-' :: 'I' :: 'n' :: 'f' :: 'i' :: 'n' :: 'i' :: 't' :: 'y' :: r =>
      some (Json.flt "-Infinity", r)
    | c :: _ => if c = '-' ∨ c.isDigit then parseJNum l else none

/-- Parse an object body, after the opening brace and following whitespace. -/
def parseJObj : Nat → List Char → Option (Json × List Char)
  | 0, _ => none
  | fuel + 1, l =>
    match l with
    | '}' :: r => some (Json.obj [], r)
    | _ => parseJMembers fuel l []

/-- Parse the members of a non-empty object.  Duplicate keys keep the first
position and the last value, as successive `dict` assignment does. -/
def parseJMembers : Nat → List Char → List (String × Json) →
    Option (Json × List Char)
  | 0, _, _ => none
  | fuel + 1, l, acc =>
    match l with
    | '"' :: r =>
      match parseJStr r [] with
      | none => none
      | some (k, r2) =>
        match skipWs r2 with
        | ':' :: r3 =>
          match parseJVal fuel (skipWs r3) with
          | none => none
          | some (v, r4) =>
            let acc2 := insertKey acc k v
            match skipWs r4 with
            | ',' :: r5 => parseJMembers fuel (skipWs r5) acc2
            | '}' :: r5 => some (Json.obj acc2, r5)
            | _ => none
        | _ => none
    | _ => none

/-- Parse an array body, after the opening bracket and following whitespace. -/
def parseJArr : Nat → List Char → Option (Json × List Char)
  | 0, _ => none
  | fuel + 1, l =>
    match l with
    | ']' :: r => some (Json.arr [], r)
    | _ => parseJElems fuel l []

/-- Parse the elements of a non-empty array. -/
def parseJElems : Nat → List Char → List Json → Option (Json × List Char)
  | 0, _, _ => none
  | fuel + 1, l, acc =>
    match parseJVal fuel l with
    | none => none
    | some (v, r) =>
      match skipWs r with
      | ',' :: r2 => parseJElems fuel (skipWs r2) (v :: acc)
      | ']' :: r2 => some (Json.arr (v :: acc).reverse, r2)
      | _ => none

end

/-- Model of Python `json.loads`: the whole document must be one JSON value
surrounded only by whitespace; `none` models a raised `JSONDecodeError`.
The fuel bound `3 * length + 3` covers the worst case of the mutual
recursion, where each consumed character (an opening bracket or brace, a
comma, a member key) accounts for at most three nested calls. -/
def jsonLoads (s : String) : Option Json :=
  match parseJVal (3 * s.length + 3) (skipWs s.data) with
  | some (v, rest) => if skipWs rest = [] then some v else none
  | none => none

/-- The backtick character, sole delimiter of fenced code blocks. -/
def tick : Char := Char.ofNat 96

/-- Characters matched by the regex class `\s` (ASCII model: space, tab,
newline, carriage return, vertical tab, form feed). -/
def pySpace (c : Char) : Bool :=
  c = ' ' || c = '\t' || c = '\n' || c = '\r' || c = Char.ofNat 11 || c = Char.ofNat 12

/-- Drop a maximal run of `\s` characters (the greedy `\s*`). -/
def dropPySpaces : List Char → List Char
  | [] => []
  | c :: r => if pySpace c then dropPySpaces r else c :: r

/-- Whether the input begins with three backticks. -/
def isTripleTick (l : List Char) : Bool :=
  l.take 3 = [tick, tick, tick]

/-- Lazy scan for the body of `\{.*?\}` inside the fence regex
 {curly} (?:json)? \s* ( \{ .*? \} ) \s* {curly} of `extract_json`
(the braces written here as words; the real pattern is
triple-backtick (?:json)? \s* brace-group \s* triple-backtick, DOTALL).
Given the input after the opening brace, returns the shortest body such
that a closing brace, optional whitespace and three backticks follow,
exactly as the lazy quantifier backtracks. -/
def fenceBody : List Char → List Char → Option (List Char)
  | _, [] => none
  | acc, c :: rest =>
    if c = '}' ∧ isTripleTick (dropPySpaces rest) then some acc.reverse
    else fenceBody (c :: acc) rest

/-- After the optional "json" tag: `\s* ( \{ .*? \} ) \s* ` triple-backtick. -/
def fenceAfterTag (l : List Char) : Option (List Char) :=
  match dropPySpaces l with
  | '{' :: rest => (fenceBody [] rest).map (fun b => '{' :: (b ++ ['}']))
  | _ => none

/-- After an opening triple backtick: the optional (greedy) "json" tag, then
the rest of the fence pattern; on failure with the tag consumed, backtrack
to the untagged alternative. -/
def fenceFrom (l : List Char) : Option (List Char) :=
  if l.take 4 = ['j', 's', 'o', 'n'] then
    match fenceAfterTag (l.drop 4) with
    | some g => some g
    | none => fenceAfterTag l
  else fenceAfterTag l

/-- Try the whole fence pattern anchored at the current position. -/
def fenceAt (l : List Char) : Option (List Char) :=
  if isTripleTick l then fenceFrom (l.drop 3) else none

/-- `re.search` of the fence pattern: the leftmost position where the
pattern matches, returning the brace-delimited group. -/
def fenceSearch : List Char → Option (List Char)
  | [] => none
  | c :: rest =>
    match fenceAt (c :: rest) with
    | some g => some g
    | none => fenceSearch rest

/-- Suffix of the input starting at its first opening brace. -/
def afterFirstBrace : List Char → Option (List Char)
  | [] => none
  | c :: rest => if c = '{' then some (c :: rest) else afterFirstBrace rest

/-- On a reversed input, drop everything after the last closing brace. -/
def dropToCloseRev : List Char → Option (List Char)
  | [] => none
  | c :: rest => if c = '}' then some (c :: rest) else dropToCloseRev rest

/-- `re.search` of the greedy DOTALL pattern matching a brace-group
`\x7b.*\x7d`: the span from the first opening brace to the last closing
brace, when the latter lies strictly after the former. -/
def braceSearch (l : List Char) : Option (List Char) :=
  match afterFirstBrace l with
  | none => none
  | some t =>
    match dropToCloseRev t.reverse with
    | none => none
    | some r => some r.reverse

/-- Model of `extract_json` (src/app.py lines 83-98): `None` on empty
input, else the first fenced brace-group, else the greedy first-to-last
brace span, else `None`. -/
def extract_json (text : String) : Option String :=
  if text.data = [] then none
  else
    match fenceSearch text.data with
    | some g => some (String.mk g)
    | none =>
      match braceSearch text.data with
      | some g => some (String.mk g)
      | none => none

/-- The candidate payload of `safe_json_parse`:
`extract_json(plan_text) or plan_text` (Python `or` rejects falsy values,
i.e. `None` and the empty string). -/
def candidate_payload (plan_text : String) : String :=
  match extract_json plan_text with
  | some s => if s = "" then plan_text else s
  | none => plan_text

/-- Model of `safe_json_parse` (src/app.py lines 100-105): strict JSON
parse of the candidate payload, returning the fallback on any parse
error. -/
def safe_json_parse (plan_text : String) (fallback : Json) : Json :=
  match jsonLoads (candidate_payload plan_text) with
  | some v => v
  | none => fallback

/-- The pydantic `ResearchPlan` model of both modules. -/
structure ResearchPlan where
  topic : String
  search_queries : List String
  focus_areas : List String
deriving Repr, DecidableEq

/-- First binding of a key in an association list (keys are unique in
parser output and in the fallback dict). -/
def lookupKey : List (String × Json) → String → Option Json
  | [], _ => none
  | (k, v) :: rest, key => if k = key then some v else lookupKey rest key

/-- A `str` field. -/
def asStr : Json → Option String
  | Json.str s => some s
  | _ => none

/-- A `list[str]` field: must be a list whose items are all strings. -/
def asStrList : Json → Option (List String)
  | Json.arr items =>
    items.foldr
      (fun j acc =>
        match asStr j, acc with
        | some s, some l => some (s :: l)
        | _, _ => none)
      (some [])
  | _ => none

/-- Pydantic validation of `ResearchPlan(**d)` for a mapping `d`: the three
fields are required with the annotated types, extra keys are ignored;
`none` models a raised `ValidationError`. -/
def validateResearchPlan : Json → Option ResearchPlan
  | Json.obj fields =>
    match (lookupKey fields "topic").bind asStr,
          (lookupKey fields "search_queries").bind asStrList,
          (lookupKey fields "focus_areas").bind asStrList with
    | some t, some q, some f => some ⟨t, q, f⟩
    | _, _, _ => none
  | _ => none

/-- The `try ResearchPlan(**plan_dict) except ValidationError:
ResearchPlan(**fallback_plan)` step of app.py (lines 227-230).  A
non-mapping `plan_dict` makes `**` raise `TypeError`, which the
`except ValidationError` clause does not catch; that error propagates. -/
def planFromDict (plan_dict fallback_plan : Json) : Except String ResearchPlan :=
  match plan_dict with
  | Json.obj _ =>
    match validateResearchPlan plan_dict with
    | some p => Except.ok p
    | none =>
      match fallback_plan with
      | Json.obj _ =>
        match validateResearchPlan fallback_plan with
        | some p => Except.ok p
        | none => Except.error "ValidationError"
      | _ => Except.error "TypeError: argument after ** must be a mapping"
  | _ => Except.error "TypeError: argument after ** must be a mapping"

/-- One collected fact (src/app.py lines 248-252). -/
structure Finding where
  fact : String
  source : String
  timestamp : String
deriving Repr, DecidableEq

/-- The session state of app.py (its `defaults`, lines 38-44). -/
structure SessionState where
  conversation_id : String
  collected_facts : List Finding
  research_done : Bool
  report_result : Option String
  critique_result : Option String
deriving Repr, DecidableEq

/-- The default session of app.py for a fresh conversation id. -/
def defaultSession (cid : String) : SessionState :=
  { conversation_id := cid
    collected_facts := []
    research_done := false
    report_result := none
    critique_result := none }

/-- One run's model responses: each agent call is a function from the
composed prompt to the service's returned text (`GeminiAgent.run` always
returns a string, see `agentRun` below), plus the wall-clock timestamp. -/
structure Oracles where
  triage : String → String
  research : String → String
  editor : String → String
  critic : String → String
  now : String

/-- Result of one `run_research` call: the session state it leaves behind,
the plan it produced (when it got that far), and the exception that
escaped it, if any. -/
structure RunResult where
  state : SessionState
  plan : Option ResearchPlan
  error : Option String
deriving Repr

/-- The fallback plan dict of app.py line 224. -/
def fallbackJson (topic : String) : Json :=
  Json.obj
    [("topic", Json.str topic),
     ("search_queries", Json.arr [Json.str topic]),
     ("focus_areas", Json.arr [Json.str "General overview"])]

/-- The same fallback as a validated `ResearchPlan`. -/
def fallbackPlan (topic : String) : ResearchPlan :=
  ⟨topic, [topic], ["General overview"]⟩

/-- Python `repr` of a string, as an f-string renders a `str` inside a
list (ASCII model): single-quoted unless the text holds a single quote and
no double quote, with backslash escapes for the quote, backslashes and the
common control characters. -/
def pyReprStr (s : String) : String :=
  let squote := Char.ofNat 39
  let dquote := Char.ofNat 34
  let bslash := Char.ofNat 92
  let useDouble := s.data.contains squote ∧ ¬ s.data.contains dquote
  let q := if useDouble then dquote else squote
  let esc : Char → List Char := fun c =>
    if c = bslash then [bslash, bslash]
    else if c = q then [bslash, q]
    else if c = '\n' then [bslash, 'n']
    else if c = '\r' then [bslash, 'r']
    else if c = '\t' then [bslash, 't']
    else [c]
  String.mk (q :: (s.data.flatMap esc ++ [q]))

/-- Python `repr` of a list of strings, as an f-string renders it. -/
def pyReprList (xs : List String) : String :=
  "[" ++ String.intercalate ", " (xs.map pyReprStr) ++ "]"

/-- The triage prompt of app.py line 223. -/
def triagePrompt (topic : String) : String :=
  "Topic: " ++ topic ++ "\nReturn JSON only."

/-- The research prompt of app.py lines 239-244. -/
def notesPrompt (plan : ResearchPlan) : String :=
  "Topic: " ++ plan.topic ++ "\n" ++
  "Search Queries: " ++ pyReprList plan.search_queries ++ "\n" ++
  "Focus Areas: " ++ pyReprList plan.focus_areas ++ "\n" ++
  "Provide concise findings."

/-- The editor prompt of app.py lines 262-265. -/
def editorPrompt (topic research_notes : String) : String :=
  "Topic: " ++ topic ++ "\n\nResearch Notes:\n" ++ research_notes ++
  "\n\nWrite the full report now."

/-- Model of `run_research` (src/app.py lines 211-279): reset the session
fields, triage with JSON-fallback parsing and pydantic validation, then
research, editor and critic in sequence, storing one finding, the report
and the critique, and finally flagging completion.  A `TypeError` from a
non-mapping triage payload escapes with the session still reset. -/
def run_research (o : Oracles) (topic : String) (s0 : SessionState) : RunResult :=
  let s1 : SessionState :=
    { s0 with
      collected_facts := []
      research_done := false
      report_result := none
      critique_result := none }
  let triage_raw := o.triage (triagePrompt topic)
  let fallback_plan := fallbackJson topic
  let plan_dict := safe_json_parse triage_raw fallback_plan
  match planFromDict plan_dict fallback_plan with
  | Except.error e => { state := s1, plan := none, error := some e }
  | Except.ok plan =>
    let research_notes := o.research (notesPrompt plan)
    let s2 : SessionState :=
      { s1 with
        collected_facts :=
          s1.collected_facts ++
            [{ fact := research_notes
               source := "Gemini (summarized findings)"
               timestamp := o.now }] }
    let report_text := o.editor (editorPrompt plan.topic research_notes)
    let s3 : SessionState := { s2 with report_result := some report_text }
    let critique_text := o.critic report_text
    let s4 : SessionState :=
      { s3 with critique_result := some critique_text, research_done := true }
    { state := s4, plan := some plan, error := none }

/-!  Model Client retry loop (src/app.py, `GeminiAgent.run`, lines 117-130).
The underlying `generate_content` call is an oracle indexed by the attempt
number: `Except.error e` models a raised exception with message `e`,
`Except.ok t` a response whose `text` attribute is `t` (`none` when the
attribute is missing or `None`). -/

/-- Trace of one `GeminiAgent.run` call: the returned text, the backoff
sleeps performed (in seconds, in order), and the number of service calls
made. -/
structure AgentTrace where
  text : String
  sleeps : List Nat
  calls : Nat
deriving Repr, DecidableEq

/-- The `for attempt in range(3)` loop body, over the list of remaining
attempt indices.  On success the response text is returned ("No response."
for a missing or falsy text); on an exception, attempts 0 and 1 sleep
`2 * (attempt + 1)` seconds and continue, attempt 2 returns the diagnostic
placeholder embedding the error.  The loop always returns within the
listed attempts, so the empty case is unreachable for `[0, 1, 2]`. -/
def agentRunGo (call : Nat → Except String (Option String)) (name : String) :
    List Nat → List Nat → Nat → AgentTrace
  | [], sleeps, made => ⟨"No response.", sleeps.reverse, made⟩
  | a :: rest, sleeps, made =>
    match call a with
    | Except.ok t =>
      let text := match t with
        | some s => if s = "" then "No response." else s
        | none => "No response."
      ⟨text, sleeps.reverse, made + 1⟩
    | Except.error e =>
      if a < 2 then agentRunGo call name rest (2 * (a + 1) :: sleeps) (made + 1)
      else ⟨"⚠️ Error from " ++ name ++ ": " ++ e, sleeps.reverse, made + 1⟩

/-- Model of `GeminiAgent.run`: three attempts with backoff, never
raising. -/
def agentRun (call : Nat → Except String (Option String)) (name : String) :
    AgentTrace :=
  agentRunGo call name [0, 1, 2] [] 0

/-- Model of main.py's `GeminiAgent.run` (src/main.py lines 68-72): a
single call to the service with no retry, no backoff and no exception
handling — an error from the underlying call propagates to the caller
(`Except.error`); on success the response text is returned, with the
"No response." sentinel for a missing or falsy text.  The trace records
the sleeps performed (always none) and the number of calls made (always
one). -/
def mainAgentRun (call : Nat → Except String (Option String)) :
    Except String String × List Nat × Nat :=
  match call 0 with
  | Except.ok t =>
    (Except.ok (match t with
      | some s => if s = "" then "No response." else s
      | none => "No response."), [], 1)
  | Except.error e => (Except.error e, [], 1)

/-!  The main.py variant (src/main.py). -/

/-- The session state of main.py (its `defaults`, lines 28-33; no
critique field exists there). -/
structure MainSession where
  conversation_id : String
  collected_facts : List Finding
  research_done : Bool
  report_result : Option String
deriving Repr, DecidableEq

/-- Python `str.strip()` (ASCII whitespace model). -/
def pyStrip (s : String) : String :=
  String.mk (((dropPySpaces s.data).reverse |> dropPySpaces).reverse)

/-- The branch condition of src/main.py line 148: the triage output is
passed to `eval(...)` — evaluated as a Python expression — exactly when its
stripped text starts with an opening brace; otherwise the inline default
plan dict is used. -/
def mainTriageEvalBranch (triage_output : String) : Bool :=
  match (pyStrip triage_output).data with
  | c :: _ => c = '{'
  | [] => false

/-- Model of the run trigger of src/main.py lines 191-198.  `runBody`
models `run_research(user_topic)` as the session state it has written when
it returns or raises, paired with the raised exception's text, if any: on
an exception, an inline error is shown (UI effect), the report body is
replaced by a degraded text embedding the error, and the session is marked
done. -/
def mainRunTrigger (runBody : MainSession → MainSession × Option String)
    (user_topic : String) (s0 : MainSession) : MainSession :=
  match runBody s0 with
  | (s, none) => s
  | (s, some e) =>
    { s with
      report_result := some ("# Research on " ++ user_topic ++ "\n\nError: " ++ e)
      research_done := true }

/-!  Report export filenames. -/

/-- Whether Python treats a character as cased, ASCII model: letters. -/
def pyCased (c : Char) : Bool := c.isAlpha

/-- Python `str.title()` (ASCII model): a cased character is uppercased
after a non-cased character and lowercased otherwise; non-cased characters
pass through and end the word. -/
def pyTitleGo : Bool → List Char → List Char
  | _, [] => []
  | prevCased, c :: r =>
    let c2 := if pyCased c then (if prevCased then c.toLower else c.toUpper) else c
    c2 :: pyTitleGo (pyCased c) r

/-- Python `str.title()`. -/
def pyTitle (s : String) : String :=
  String.mk (pyTitleGo false s.data)

/-- Python `s.replace(" ", "_")`. -/
def replaceSpaces (s : String) : String :=
  String.mk (s.data.map fun c => if c = ' ' then '_' else c)

/-- The `.md` file name offered by app.py's report tab (lines 291 and
303-308): the topic (or "Report" when empty) is title-cased, then spaces
become underscores. -/
def appReportFileName (user_topic : String) : String :=
  let title_text := pyTitle (if user_topic = "" then "Report" else user_topic)
  replaceSpaces title_text ++ ".md"

/-- The `.md` file name offered by main.py's report tab (lines 207-211):
spaces become underscores, with no title-casing. -/
def mainReportFileName (user_topic : String) : String :=
  replaceSpaces user_topic ++ ".md"

/-- Whether a JSON value is a mapping. -/
def Json.isObj : Json → Bool
  | Json.obj _ => true
  | _ => false

/-!  Concrete fixtures used by witnesses and counterexamples. -/

/-- Oracles whose triage output holds no JSON at all. -/
def noJsonOracles : Oracles :=
  { triage := fun _ => "I am sorry, I cannot produce that plan."
    research := fun _ => "findings text"
    editor := fun _ => "report text"
    critic := fun _ => "critique text"
    now := "10:00:00" }

/-- Oracles whose triage output is a valid JSON array, not an object. -/
def arrayTriageOracles : Oracles :=
  { noJsonOracles with triage := fun _ => "[1, 2]" }

/-- Oracles whose triage output is a valid, schema-conforming JSON object
with an empty topic and empty lists. -/
def emptyPlanOracles : Oracles :=
  { noJsonOracles with
    triage := fun _ =>
      "\x7b\"topic\": \"\", \"search_queries\": [], \"focus_areas\": []\x7d" }

/-!  Helper lemmas. -/

/-- On a parse failure of the candidate payload, `safe_json_parse` returns
the fallback. -/
theorem safe_json_parse_of_fail (t : String) (fb : Json)
    (h : jsonLoads (candidate_payload t) = none) :
    safe_json_parse t fb = fb := by
  unfold safe_json_parse
  rw [h]

/-- On a parse success, `safe_json_parse` returns the parsed value. -/
theorem safe_json_parse_of_ok (t : String) (fb v : Json)
    (h : jsonLoads (candidate_payload t) = some v) :
    safe_json_parse t fb = v := by
  unfold safe_json_parse
  rw [h]

/-- The fallback dict always validates, to the fallback plan. -/
theorem validate_fallbackJson (topic : String) :
    validateResearchPlan (fallbackJson topic) = some (fallbackPlan topic) := rfl

/-- Validating the fallback dict against itself yields the fallback plan. -/
theorem planFromDict_fallback (topic : String) :
    planFromDict (fallbackJson topic) (fallbackJson topic) =
      Except.ok (fallbackPlan topic) := rfl

/-- A mapping that fails pydantic validation is replaced by the fallback
plan (the caught-`ValidationError` branch). -/
theorem planFromDict_obj_invalid (fields : List (String × Json)) (topic : String)
    (hv : validateResearchPlan (Json.obj fields) = none) :
    planFromDict (Json.obj fields) (fallbackJson topic) =
      Except.ok (fallbackPlan topic) := by
  unfold planFromDict
  rw [hv]
  rfl

/-- A mapping that validates is used as the plan. -/
theorem planFromDict_obj_valid (fields : List (String × Json)) (fb : Json)
    (q : ResearchPlan) (hv : validateResearchPlan (Json.obj fields) = some q) :
    planFromDict (Json.obj fields) fb = Except.ok q := by
  unfold planFromDict
  rw [hv]

/-- The plan component of a run is determined by `planFromDict` on the
parsed (or fallback) triage payload. -/
theorem run_research_plan_eq (o : Oracles) (topic : String) (s0 : SessionState) :
    (run_research o topic s0).plan =
      match planFromDict (safe_json_parse (o.triage (triagePrompt topic))
          (fallbackJson topic)) (fallbackJson topic) with
      | Except.ok q => some q
      | Except.error _ => none := by
  simp only [run_research]
  cases hpd : planFromDict (safe_json_parse (o.triage (triagePrompt topic))
      (fallbackJson topic)) (fallbackJson topic) <;> simp

/-- All components of a run's result except the untouched conversation id
are independent of the session state the run started from. -/
theorem run_research_indep (o : Oracles) (t : String) (s s' : SessionState) :
    (run_research o t s).state.collected_facts =
        (run_research o t s').state.collected_facts ∧
    (run_research o t s).state.research_done =
        (run_research o t s').state.research_done ∧
    (run_research o t s).state.report_result =
        (run_research o t s').state.report_result ∧
    (run_research o t s).state.critique_result =
        (run_research o t s').state.critique_result ∧
    (run_research o t s).plan = (run_research o t s').plan ∧
    (run_research o t s).error = (run_research o t s').error := by
  simp only [run_research]
  cases hpd : planFromDict (safe_json_parse (o.triage (triagePrompt t))
      (fallbackJson t)) (fallbackJson t) <;> simp

/-!  Claims. -/

/-- C1: whenever the triage output text holds no parseable JSON, the run
uses exactly the fallback plan (topic, [topic], ["General overview"]) and
still proceeds through research, editor and critic to completion, storing
the finding, the report and the critique, with no exception. -/
theorem claim_C1_fallback_pipeline (o : Oracles) (topic : String)
    (s0 : SessionState)
    (h : jsonLoads (candidate_payload (o.triage (triagePrompt topic))) = none) :
    run_research o topic s0 =
      { state :=
          { conversation_id := s0.conversation_id
            collected_facts :=
              [{ fact := o.research (notesPrompt (fallbackPlan topic))
                 source := "Gemini (summarized findings)"
                 timestamp := o.now }]
            research_done := true
            report_result := some (o.editor (editorPrompt topic
              (o.research (notesPrompt (fallbackPlan topic)))))
            critique_result := some (o.critic (o.editor (editorPrompt topic
              (o.research (notesPrompt (fallbackPlan topic)))))) }
        plan := some (fallbackPlan topic)
        error := none } := by
  simp only [run_research, safe_json_parse_of_fail _ _ h, planFromDict_fallback,
    fallbackPlan, List.nil_append]

/-- C1 witness: the concrete invalid-triage run on the spec's topic. -/
theorem claim_C1_witness :
    run_research noJsonOracles "Solar Power in Rural India" (defaultSession "cid") =
      { state :=
          { conversation_id := "cid"
            collected_facts :=
              [{ fact := "findings text"
                 source := "Gemini (summarized findings)"
                 timestamp := "10:00:00" }]
            research_done := true
            report_result := some "report text"
            critique_result := some "critique text" }
        plan := some (fallbackPlan "Solar Power in Rural India")
        error := none } :=
  claim_C1_fallback_pipeline noJsonOracles "Solar Power in Rural India"
    (defaultSession "cid") rfl

/-- C7 counterexample: a triage output that is valid JSON with an empty
topic and empty lists passes pydantic validation unchanged, so the produced
plan violates the claimed invariant; and with an empty submitted topic and
unparseable triage output, the fallback plan carries the empty topic — no
minimal default plan is substituted. -/
theorem claim_C7_cex :
    (run_research emptyPlanOracles "Solar" (defaultSession "s")).plan =
      some { topic := "", search_queries := [], focus_areas := [] } ∧
    (run_research noJsonOracles "" (defaultSession "s")).plan =
      some { topic := "", search_queries := [""], focus_areas := ["General overview"] } :=
  ⟨rfl, rfl⟩

/-- C7 amended: every plan a run produces is either the fallback plan —
whose query and focus lists are non-empty but whose topic is the submitted
topic, possibly empty — or the validated triage JSON, which pydantic
accepts even with empty topic or empty lists. -/
theorem claim_C7_plan_shape (o : Oracles) (topic : String) (s0 : SessionState)
    (p : ResearchPlan) (h : (run_research o topic s0).plan = some p) :
    (p = fallbackPlan topic ∧ p.search_queries ≠ [] ∧ p.focus_areas ≠ []) ∨
      ∃ j, jsonLoads (candidate_payload (o.triage (triagePrompt topic))) = some j ∧
        validateResearchPlan j = some p := by
  rw [run_research_plan_eq] at h
  rcases hj : jsonLoads (candidate_payload (o.triage (triagePrompt topic))) with _ | j
  · rw [safe_json_parse_of_fail _ _ hj, planFromDict_fallback] at h
    simp only [Option.some.injEq] at h
    subst h
    exact Or.inl ⟨rfl, by simp [fallbackPlan], by simp [fallbackPlan]⟩
  · rw [safe_json_parse_of_ok _ _ _ hj] at h
    cases j with
    | obj fields =>
      cases hv : validateResearchPlan (Json.obj fields) with
      | none =>
        simp only [planFromDict_obj_invalid fields topic hv, Option.some.injEq] at h
        subst h
        exact Or.inl ⟨rfl, by simp [fallbackPlan], by simp [fallbackPlan]⟩
      | some q =>
        simp only [planFromDict_obj_valid fields (fallbackJson topic) q hv,
          Option.some.injEq] at h
        subst h
        exact Or.inr ⟨Json.obj fields, rfl, hv⟩
    | null => simp [planFromDict] at h
    | bool b => simp [planFromDict] at h
    | num n => simp [planFromDict] at h
    | flt f => simp [planFromDict] at h
    | str s => simp [planFromDict] at h
    | arr items => simp [planFromDict] at h

/-- C7 witness: the amended shape at a concrete unparseable-triage run. -/
theorem claim_C7_witness :
    (fallbackPlan "T" = fallbackPlan "T" ∧
      (fallbackPlan "T").search_queries ≠ [] ∧ (fallbackPlan "T").focus_areas ≠ []) ∨
      ∃ j, jsonLoads (candidate_payload
          (noJsonOracles.triage (triagePrompt "T"))) = some j ∧
        validateResearchPlan j = some (fallbackPlan "T") :=
  claim_C7_plan_shape noJsonOracles "T" (defaultSession "s") (fallbackPlan "T") rfl

/-- A list starting with a non-backtick is no triple backtick. -/
theorem isTripleTick_cons_ne (c : Char) (x : List Char) (h : c ≠ tick) :
    isTripleTick (c :: x) = false := by
  simp only [isTripleTick, List.take_succ_cons, decide_eq_false_iff_not]
  intro hEq
  exact h (List.cons_eq_cons.mp hEq).1

/-- The fence pattern cannot match at a non-backtick character. -/
theorem fenceAt_cons_ne (c : Char) (x : List Char) (h : c ≠ tick) :
    fenceAt (c :: x) = none := by
  unfold fenceAt
  rw [isTripleTick_cons_ne c x h]
  rfl

/-- `re.search` skips a backtick-free prefix. -/
theorem fenceSearch_append_of_noTick (p l : List Char)
    (hp : ∀ c ∈ p, c ≠ tick) :
    fenceSearch (p ++ l) = fenceSearch l := by
  induction p with
  | nil => rfl
  | cons c p2 ih =>
    have hc : c ≠ tick := hp c (List.mem_cons_self c p2)
    simp only [List.cons_append, fenceSearch, fenceAt_cons_ne c _ hc]
    exact ih fun d hd => hp d (List.mem_cons_of_mem c hd)

/-- `\s*` consumes an all-whitespace prefix. -/
theorem dropPySpaces_append (sp l : List Char)
    (h : ∀ c ∈ sp, pySpace c = true) :
    dropPySpaces (sp ++ l) = dropPySpaces l := by
  induction sp with
  | nil => rfl
  | cons c sp2 ih =>
    simp only [List.cons_append, dropPySpaces, h c (List.mem_cons_self c sp2),
      if_true]
    exact ih fun d hd => h d (List.mem_cons_of_mem c hd)

/-- `\s*` stops at a non-whitespace character. -/
theorem dropPySpaces_cons_nospace (c : Char) (l : List Char)
    (h : pySpace c = false) :
    dropPySpaces (c :: l) = c :: l := by
  simp [dropPySpaces, h]

/-- After a closing brace inside a backtick-free body, no closing fence
follows: the first non-whitespace character is the brace or a body
character, never a backtick. -/
theorem noTick_notTriple (m r : List Char) (hm : ∀ c ∈ m, c ≠ tick) :
    isTripleTick (dropPySpaces (m ++ '}' :: r)) = false := by
  induction m with
  | nil =>
    rw [List.nil_append, dropPySpaces_cons_nospace _ _ (by decide)]
    exact isTripleTick_cons_ne _ _ (by decide)
  | cons c m2 ih =>
    cases hB : pySpace c with
    | true =>
      simp only [List.cons_append, dropPySpaces, hB, if_true]
      exact ih fun d hd => hm d (List.mem_cons_of_mem c hd)
    | false =>
      rw [List.cons_append, dropPySpaces_cons_nospace _ _ hB]
      exact isTripleTick_cons_ne _ _ (hm c (List.mem_cons_self c m2))

/-- The lazy body scan runs through a backtick-free interior and stops
exactly at the closing brace that a whitespace-then-fence suffix follows. -/
theorem fenceBody_through :
    ∀ (mid : List Char), (∀ c ∈ mid, c ≠ tick) →
      ∀ (rest : List Char), isTripleTick (dropPySpaces rest) = true →
        ∀ acc, fenceBody acc (mid ++ '}' :: rest) = some (acc.reverse ++ mid) := by
  intro mid
  induction mid with
  | nil =>
    intro _ rest hr acc
    rw [List.nil_append]
    simp only [fenceBody]
    rw [if_pos ⟨trivial, hr⟩, List.append_nil]
  | cons c mid2 ih =>
    intro hm rest hr acc
    have hfalse := noTick_notTriple mid2 rest fun d hd => hm d (List.mem_cons_of_mem c hd)
    have hno : ¬(c = '}' ∧ isTripleTick (dropPySpaces (mid2 ++ '}' :: rest)) = true) := by
      intro hand
      rw [hfalse] at hand
      exact Bool.false_ne_true hand.2
    rw [List.cons_append]
    simp only [fenceBody]
    rw [if_neg hno, ih (fun d hd => hm d (List.mem_cons_of_mem c hd)) rest hr (c :: acc)]
    simp [List.reverse_cons, List.append_assoc]

/-- After the tag, whitespace then the brace group: the pattern returns
exactly the group. -/
theorem fenceAfterTag_exact (sp mid rest2 : List Char)
    (hsp : ∀ c ∈ sp, pySpace c = true)
    (hmid : ∀ c ∈ mid, c ≠ tick)
    (hr : isTripleTick (dropPySpaces rest2) = true) :
    fenceAfterTag (sp ++ '{' :: (mid ++ '}' :: rest2)) =
      some ('{' :: (mid ++ ['}'])) := by
  unfold fenceAfterTag
  rw [dropPySpaces_append sp _ hsp, dropPySpaces_cons_nospace _ _ (by decide)]
  show (fenceBody [] (mid ++ '}' :: rest2)).map (fun b => '{' :: (b ++ ['}'])) =
    some ('{' :: (mid ++ ['}']))
  rw [fenceBody_through mid hmid rest2 hr []]
  simp

/-- The whole post-backtick pattern, for an empty or "json" tag. -/
theorem fenceFrom_exact (tagL sp mid rest2 : List Char)
    (htag : tagL = [] ∨ tagL = ['j', 's', 'o', 'n'])
    (hsp : ∀ c ∈ sp, pySpace c = true)
    (hmid : ∀ c ∈ mid, c ≠ tick)
    (hr : isTripleTick (dropPySpaces rest2) = true) :
    fenceFrom (tagL ++ (sp ++ '{' :: (mid ++ '}' :: rest2))) =
      some ('{' :: (mid ++ ['}'])) := by
  rcases htag with h | h <;> subst h
  · rw [List.nil_append]
    unfold fenceFrom
    rw [if_neg ?hne]
    case hne =>
      cases sp with
      | nil =>
        rw [List.nil_append, List.take_succ_cons]
        intro hEq
        exact absurd (List.cons_eq_cons.mp hEq).1 (by decide)
      | cons c sp2 =>
        rw [List.cons_append, List.take_succ_cons]
        intro hEq
        have hcj : c = 'j' := (List.cons_eq_cons.mp hEq).1
        have hcs := hsp c (List.mem_cons_self c sp2)
        rw [hcj] at hcs
        exact absurd hcs (by decide)
    exact fenceAfterTag_exact sp mid rest2 hsp hmid hr
  · have hTake : ((['j', 's', 'o', 'n'] : List Char) ++
        (sp ++ '{' :: (mid ++ '}' :: rest2))).take 4 = ['j', 's', 'o', 'n'] := by
      simp
    have hDrop : ((['j', 's', 'o', 'n'] : List Char) ++
        (sp ++ '{' :: (mid ++ '}' :: rest2))).drop 4 =
        sp ++ '{' :: (mid ++ '}' :: rest2) := by
      simp
    unfold fenceFrom
    rw [if_pos hTake, hDrop, fenceAfterTag_exact sp mid rest2 hsp hmid hr]

/-- `re.search` returns the group when the fence pattern matches right at
an opening triple backtick. -/
theorem fenceSearch_found (x g : List Char) (h : fenceFrom x = some g) :
    fenceSearch (tick :: tick :: tick :: x) = some g := by
  have hAt : fenceAt (tick :: tick :: tick :: x) = fenceFrom x := by
    unfold fenceAt
    rw [if_pos]
    · rfl
    · simp [isTripleTick, List.take_succ_cons]
  simp only [fenceSearch, hAt, h]

/-- C2 counterexample: the text below embeds the valid JSON object
`\x7b"a": 1\x7d` in a json-tagged fence, yet because an earlier stray
"``` \x7b" precedes the block, the lazy fence pattern matches across the
stray opening and `extract_json` returns a longer span, not the object's
text. -/
theorem claim_C2_cex :
    extract_json "``` \x7boops\n```json \x7b\"a\": 1\x7d```" =
      some "\x7boops\n```json \x7b\"a\": 1\x7d" ∧
    jsonLoads "\x7b\"a\": 1\x7d" = some (Json.obj [("a", Json.num 1)]) ∧
    extract_json "``` \x7boops\n```json \x7b\"a\": 1\x7d```" ≠
      some "\x7b\"a\": 1\x7d" :=
  ⟨rfl, rfl, by decide⟩

/-- C2 amended: for every valid JSON object placed in a triple-backtick
fence (optionally tagged json, whitespace around the object), with
arbitrary text after the block and a backtick-free text before it, and with
a backtick-free object interior, `extract_json` returns exactly the
object's text.  (The counterexample forces the two backtick-freedom
conditions: stray backticks before the block or inside the object can make
the lazy pattern match a different span.) -/
theorem claim_C2_fenced_extraction (pre tag sp obj sp2 post : String)
    (hpre : ∀ c ∈ pre.data, c ≠ tick)
    (htag : tag = "" ∨ tag = "json")
    (hsp : ∀ c ∈ sp.data, pySpace c = true)
    (hsp2 : ∀ c ∈ sp2.data, pySpace c = true)
    (hobj : ∃ mid, obj.data = '{' :: (mid ++ ['}']) ∧ ∀ c ∈ mid, c ≠ tick)
    (_hjson : ∃ fields, jsonLoads obj = some (Json.obj fields)) :
    extract_json (pre ++ "```" ++ tag ++ sp ++ obj ++ sp2 ++ "```" ++ post) =
      some obj := by
  obtain ⟨mid, hdata, hmid⟩ := hobj
  have hticks : "```".data = [tick, tick, tick] := by decide
  have htagL : tag.data = [] ∨ tag.data = ['j', 's', 'o', 'n'] := by
    rcases htag with h | h <;> subst h
    · exact Or.inl rfl
    · exact Or.inr rfl
  have hr : isTripleTick (dropPySpaces
      (sp2.data ++ (tick :: tick :: tick :: post.data))) = true := by
    rw [dropPySpaces_append _ _ hsp2, dropPySpaces_cons_nospace _ _ (by decide)]
    simp [isTripleTick, List.take_succ_cons]
  have hX : (pre ++ "```" ++ tag ++ sp ++ obj ++ sp2 ++ "```" ++ post).data =
      pre.data ++ (tick :: tick :: tick ::
        (tag.data ++ (sp.data ++ ('{' :: (mid ++ '}' ::
          (sp2.data ++ (tick :: tick :: tick :: post.data))))))) := by
    simp only [String.data_append, hticks, hdata, List.append_assoc,
      List.cons_append, List.nil_append, List.singleton_append]
    rfl
  have hmk : String.mk ('{' :: (mid ++ ['}'])) = obj := by
    rw [← hdata]
  unfold extract_json
  rw [hX]
  rw [if_neg (by simp)]
  rw [fenceSearch_append_of_noTick pre.data _ hpre,
    fenceSearch_found _ _ (fenceFrom_exact tag.data sp.data mid
      (sp2.data ++ (tick :: tick :: tick :: post.data)) htagL hsp hmid hr)]
  show some (String.mk ('{' :: (mid ++ ['}']))) = some obj
  rw [hmk]

/-- C2 witness: a concrete fenced object with surrounding prose is
extracted exactly. -/
theorem claim_C2_witness :
    extract_json ("Sure! Here is the plan: " ++ "```" ++ "json" ++ " " ++
        "\x7b\"a\": 1\x7d" ++ "\n" ++ "```" ++ " Let me know!") =
      some "\x7b\"a\": 1\x7d" :=
  claim_C2_fenced_extraction "Sure! Here is the plan: " "json" " "
    "\x7b\"a\": 1\x7d" "\n" " Let me know!"
    (by decide) (Or.inr rfl) (by decide) (by decide)
    ⟨['"', 'a', '"', ':', ' ', '1'], by decide, by decide⟩
    ⟨[("a", Json.num 1)], rfl⟩

/-- C8: the findings, report and critique stored by a second run equal
those of the same run started from any other session state whatsoever —
nothing the first run stored can remain in them. -/
theorem claim_C8_no_leakage (o1 o2 : Oracles) (t1 t2 : String)
    (s0 sFresh : SessionState) :
    ((run_research o2 t2 (run_research o1 t1 s0).state).state.collected_facts =
        (run_research o2 t2 sFresh).state.collected_facts) ∧
    ((run_research o2 t2 (run_research o1 t1 s0).state).state.report_result =
        (run_research o2 t2 sFresh).state.report_result) ∧
    ((run_research o2 t2 (run_research o1 t1 s0).state).state.critique_result =
        (run_research o2 t2 sFresh).state.critique_result) := by
  obtain ⟨a, -, b, c, -, -⟩ :=
    run_research_indep o2 t2 (run_research o1 t1 s0).state sFresh
  exact ⟨a, b, c⟩

/-- C3: for every input text and every fallback, whenever strict JSON
parsing of the candidate payload fails, `safe_json_parse` returns the
caller-supplied fallback unchanged, and on a parse success it returns the
parsed value; being a total function, the model never raises. -/
theorem claim_C3_parse_fallback (text : String) (fallback : Json)
    (h : jsonLoads (candidate_payload text) = none) :
    safe_json_parse text fallback = fallback :=
  safe_json_parse_of_fail text fallback h

/-- C3 witness: a concrete unparseable text returns the concrete fallback. -/
theorem claim_C3_witness :
    safe_json_parse "The model refuses to answer." (fallbackJson "t") =
      fallbackJson "t" :=
  claim_C3_parse_fallback "The model refuses to answer." (fallbackJson "t") rfl

/-- C10: on the input "[1, 2]" — no brace-delimited object, so the whole
text is the candidate payload — `safe_json_parse` returns the parsed JSON
array rather than the fallback mapping: the declared mapping-only return
contract is not enforced. -/
theorem claim_C10_nonmapping :
    safe_json_parse "[1, 2]" (fallbackJson "t") =
      Json.arr [Json.num 1, Json.num 2] ∧
    Json.isObj (safe_json_parse "[1, 2]" (fallbackJson "t")) = false ∧
    Json.isObj (fallbackJson "t") = true :=
  ⟨rfl, rfl, rfl⟩

/-- C4 counterexample: main.py's `GeminiAgent.run` (lines 68-72) makes a
single service call with no backoff and no handler, so a transient error
propagates to its caller instead of three attempts and a diagnostic
placeholder: the claim fails for that Model Client. -/
theorem claim_C4_cex :
    mainAgentRun (fun _ => Except.error "ServiceUnavailable") =
      (Except.error "ServiceUnavailable", [], 1) := rfl

/-- C4 amended: when every underlying service call raises, app.py's
`GeminiAgent.run` makes exactly 3 calls, sleeps 2 then 4 seconds between
them, and returns the diagnostic placeholder embedding the final error,
never raising; main.py's `GeminiAgent.run` instead makes exactly one call,
sleeps never, and the error propagates to its caller. -/
theorem claim_C4_retry (call : Nat → Except String (Option String))
    (err : Nat → String) (name : String)
    (h : ∀ n, call n = Except.error (err n)) :
    agentRun call name =
      { text := "⚠️ Error from " ++ name ++ ": " ++ err 2
        sleeps := [2, 4]
        calls := 3 } ∧
    mainAgentRun call = (Except.error (err 0), [], 1) := by
  constructor
  · unfold agentRun
    simp only [agentRunGo, h 0, h 1, h 2]
    rfl
  · unfold mainAgentRun
    rw [h 0]

/-- C4 witness: a concretely always-failing call yields the placeholder
after three attempts and sleeps of 2 and 4 seconds in app.py, and the
propagated error after one attempt in main.py. -/
theorem claim_C4_witness :
    (agentRun (fun _ => Except.error "quota exhausted") "Triage Agent" =
      { text := "⚠️ Error from Triage Agent: quota exhausted"
        sleeps := [2, 4]
        calls := 3 }) ∧
    mainAgentRun (fun _ => Except.error "quota exhausted") =
      (Except.error "quota exhausted", [], 1) :=
  claim_C4_retry (fun _ => Except.error "quota exhausted")
    (fun _ => "quota exhausted") "Triage Agent" (fun _ => rfl)

/-- C5: src/main.py line 148 passes the triage output to `eval` whenever
its stripped text starts with an opening brace, so model-returned text IS
evaluated as a Python expression there; this concrete JSON-looking output
takes the eval branch.  (app.py instead recovers the plan only through
`safe_json_parse`, i.e. `extract_json` plus strict `jsonLoads`.) -/
theorem claim_C5_eval_branch :
    mainTriageEvalBranch "\x7b\"topic\": \"Solar Power\"\x7d" = true ∧
    mainTriageEvalBranch "  \x7b'topic': 'Solar Power'\x7d " = true ∧
    mainTriageEvalBranch "no json here" = false := ⟨rfl, rfl, rfl⟩

/-- C6 counterexample: in app.py the run trigger (lines 282-284) has no
exception handler; a triage output parsing to a JSON array makes
`ResearchPlan(**plan_dict)` raise `TypeError`, which `except
ValidationError` does not catch, so the run aborts with the session still
reset: not marked done and with no degraded report body. -/
theorem claim_C6_cex :
    (run_research arrayTriageOracles "Solar" (defaultSession "s")).error =
      some "TypeError: argument after ** must be a mapping" ∧
    (run_research arrayTriageOracles "Solar" (defaultSession "s")).state.research_done
      = false ∧
    (run_research arrayTriageOracles "Solar" (defaultSession "s")).state.report_result
      = none :=
  ⟨rfl, rfl, rfl⟩

/-- C6 amended: in main.py (lines 191-198) any exception escaping
`run_research` is caught at the run trigger, and the session is marked done
with a degraded report body embedding the error text, whatever partial
state the run had written. -/
theorem claim_C6_main_trigger
    (runBody : MainSession → MainSession × Option String)
    (topic : String) (s0 s1 : MainSession) (e : String)
    (h : runBody s0 = (s1, some e)) :
    mainRunTrigger runBody topic s0 =
      { s1 with
        report_result := some ("# Research on " ++ topic ++ "\n\nError: " ++ e)
        research_done := true } := by
  unfold mainRunTrigger
  rw [h]

/-- C6 witness: a concrete failing run body is caught and leaves a done
session with the degraded report. -/
theorem claim_C6_witness :
    mainRunTrigger (fun s => (s, some "boom")) "Topic"
        { conversation_id := "id"
          collected_facts := []
          research_done := false
          report_result := none } =
      { conversation_id := "id"
        collected_facts := []
        research_done := true
        report_result := some "# Research on Topic\n\nError: boom" } :=
  claim_C6_main_trigger (fun s => (s, some "boom")) "Topic"
    { conversation_id := "id"
      collected_facts := []
      research_done := false
      report_result := none }
    { conversation_id := "id"
      collected_facts := []
      research_done := false
      report_result := none }
    "boom" rfl

/-- C9 counterexample: main.py derives the download name by replacing
spaces only, with no title-casing, so the claimed derivation fails there on
the spec's own example topic. -/
theorem claim_C9_cex :
    mainReportFileName "best shops in Agra" = "best_shops_in_Agra.md" ∧
    mainReportFileName "best shops in Agra" ≠ "Best_Shops_In_Agra.md" :=
  ⟨rfl, by decide⟩

/-- C9 amended: in app.py, for every non-empty topic the `.md` base name is
the title-cased topic with spaces replaced by underscores; in particular
"best shops in Agra" yields Best_Shops_In_Agra.md.  (For the empty topic
the literal "Report" is title-cased instead; main.py performs no
title-casing, see the counterexample.) -/
theorem claim_C9_app_filename (topic : String) (h : topic ≠ "") :
    appReportFileName topic = replaceSpaces (pyTitle topic) ++ ".md" ∧
    appReportFileName "best shops in Agra" = "Best_Shops_In_Agra.md" := by
  constructor
  · unfold appReportFileName
    rw [if_neg h]
  · rfl

/-- C9 witness: the app.py derivation at a concrete non-empty topic. -/
theorem claim_C9_witness :
    appReportFileName "solar power" = replaceSpaces (pyTitle "solar power") ++ ".md" ∧
    appReportFileName "best shops in Agra" = "Best_Shops_In_Agra.md" :=
  claim_C9_app_filename "solar power" (by decide)

end ResearchAgent
